import Mathlib

/-!
Shallow embedding of the European PFAS dashboard's data pipeline
(`PFAS_load_process_tidied.py`) and of the dashboard's dataframe filter
helpers (`PFAS_Dashboard_Deploy.py`), with theorems settling the spec's
claims about them.

Dataframes are modelled as `List Row`; numeric measurement values as `ℚ`
(the conversion factor 1.3 becomes the exact rational 13/10); the
`global_land_mask.globe.is_ocean` query, which can raise, is modelled as
an oracle `ℚ → ℚ → Option Bool` where `none` stands for the per-row
exception path.
-/

namespace PFAS

/-- One entry of a source row's `pfas_values` JSON list, as produced by
`pd.json_normalize`: substance name, numeric value, unit.  The
sub-measurement's own unit becomes column `unit_x` after the merge and is
dropped by `preprocess_pfas`. -/
structure SubMeasurement where
  substance : String
  value : ℚ
  unit : String
  deriving Repr, DecidableEq

/-- One row of the raw parquet table (`df_pd`): the contextual columns that
survive `preprocess_pfas` plus the serialized `pfas_values` list (held here
already deserialized; the string `"[]"` corresponds to `pfas_values = []`).
Columns dropped wholesale by the pipeline (`cas_id`, `source_text`,
`source_url`, `dataset_name`, `details`) are omitted.  The record-level
`unit` column becomes `unit_y` after the merge and is renamed to
`measurement units`. -/
structure SourceRecord where
  dataset_id : String
  year : Int
  date : String
  name : String
  category : String
  lat : ℚ
  lon : ℚ
  city : String
  country : String
  type : String
  sector : String
  matrix : String
  unit : String
  pfas_values : List SubMeasurement
  deriving Repr, DecidableEq

/-- One row of the processed table.  Field ↔ column correspondence:
`study_id` ↔ `study_id` (renamed from `dataset_id`),
`locationType` ↔ `measurement location type` (renamed from `matrix`),
`units` ↔ `measurement units` (renamed from `unit_y`),
`flag` ↔ `Oceanic Terrestrial Flag` (created by `ocean_sea_flag`, empty
before that stage), `pfaType` ↔ `PFA type` (created by `add_pfa_group`,
empty before that stage). -/
structure Row where
  study_id : String
  year : Int
  date : String
  name : String
  category : String
  lat : ℚ
  lon : ℚ
  city : String
  country : String
  type : String
  sector : String
  locationType : String
  substance : String
  value : ℚ
  units : String
  month : String
  flag : String
  pfaType : String
  deriving Repr, DecidableEq

/-- `rejoined.replace({"year": {0: 2024, 1900: 2024}})`: sentinel years 0
and 1900 become 2024, every other year passes through. -/
def coerceYear (y : Int) : Int :=
  if y = 0 ∨ y = 1900 then 2024 else y

/-- The month replacement dictionary: two-digit month strings become month
names; any other string passes through (as `pd.replace` leaves unmapped
values unchanged). -/
def monthName (m : String) : String :=
  if m = "01" then "January"
  else if m = "02" then "February"
  else if m = "03" then "March"
  else if m = "04" then "April"
  else if m = "05" then "May"
  else if m = "06" then "June"
  else if m = "07" then "July"
  else if m = "08" then "August"
  else if m = "09" then "September"
  else if m = "10" then "October"
  else if m = "11" then "November"
  else if m = "12" then "December"
  else m

/-- `df["date"].astype(str).str.split("-").str[1]` followed by the month
replacement: element 1 of the split when it exists (then mapped through
`monthName`), otherwise NaN, which the replacement maps to "Unknown". -/
def monthOf (date : String) : String :=
  match (date.splitOn "-").get? 1 with
  | some m => monthName m
  | none => "Unknown"

/-- The row built for one sub-measurement by the explode + left join +
drop + rename + reorder steps of `preprocess_pfas`: every contextual
column is denormalized from the parent source record, `substance` and
`value` come from the sub-measurement, `measurement units` is the parent
record's `unit` column (`unit_y`; the sub-measurement's `unit_x` is
dropped).  `month`, `flag` and `pfaType` columns do not exist yet. -/
def mkRow (r : SourceRecord) (s : SubMeasurement) : Row :=
  { study_id := r.dataset_id
    year := r.year
    date := r.date
    name := r.name
    category := r.category
    lat := r.lat
    lon := r.lon
    city := r.city
    country := r.country
    type := r.type
    sector := r.sector
    locationType := r.matrix
    substance := s.substance
    value := s.value
    units := r.unit
    month := ""
    flag := ""
    pfaType := "" }

/-- `preprocess_pfas`: filter out records whose `pfas_values` is the empty
list (`df["pfas_values"] != "[]"`), explode each remaining record's list
into one row per sub-measurement, left join the contextual columns back on
(`mkRow`), coerce sentinel years, derive the month column.

Returns `none` when no record survives the filter: in that case
`expanded_rows` is the empty list and `pd.concat(expanded_rows)` raises
`ValueError` ("No objects to concatenate"), aborting the run instead of
producing a 0-row table. -/
def preprocess_pfas (df : List SourceRecord) : Option (List Row) :=
  let filtered := df.filter fun r => !r.pfas_values.isEmpty
  if filtered.isEmpty then
    none
  else
    let rejoined := filtered.flatMap fun r => r.pfas_values.map (mkRow r)
    let yearFixed := rejoined.map fun row => { row with year := coerceYear row.year }
    some (yearFixed.map fun row => { row with month := monthOf row.date })

/-- `convert_to_ng_per_l`: multiply by 1.3 (generic soil bulk density)
when the row's `measurement location type` is "Terrestrial" and its
`measurement units` is "ng/kg"; otherwise return the value unchanged. -/
def convert_to_ng_per_l (row : Row) : ℚ :=
  if row.locationType = "Terrestrial" ∧ row.units = "ng/kg" then
    row.value * (13 / 10)
  else
    row.value

/-- `update_unit`: relabel to "ng/L" on exactly the same condition as
`convert_to_ng_per_l`, otherwise leave the unit unchanged. -/
def update_unit (row : Row) : String :=
  if row.locationType = "Terrestrial" ∧ row.units = "ng/kg" then
    "ng/L"
  else
    row.units

/-- The per-row `try/except` around `globe.is_ocean(lat, lon)`:
`some true → "Oceanic"`, `some false → "Terrestrial"` (after the
`np.True_`/`np.False_` replacement), `none` (the query raised, e.g.
missing or invalid coordinates) `→ "Unknown"`. -/
def flagOf (oracle : ℚ → ℚ → Option Bool) (row : Row) : String :=
  match oracle row.lat row.lon with
  | some true => "Oceanic"
  | some false => "Terrestrial"
  | none => "Unknown"

/-- `ocean_sea_flag`: first the flag-assignment loop over all rows, then
the `np.False_`/`np.True_` relabelling (folded into `flagOf`), then
`df['value'] = df.apply(convert_to_ng_per_l, axis=1)`, then
`df['measurement units'] = df.apply(update_unit, axis=1)`, then the
column-wide force-set `df["measurement units"] = "ng/L"`. -/
def ocean_sea_flag (oracle : ℚ → ℚ → Option Bool) (df : List Row) : List Row :=
  let flagged := df.map fun r => { r with flag := flagOf oracle r }
  let converted := flagged.map fun r => { r with value := convert_to_ng_per_l r }
  let unitUpdated := converted.map fun r => { r with units := update_unit r }
  unitUpdated.map fun r => { r with units := "ng/L" }

/-- The static Perfluoroalkyl non-polymer substance list of `add_pfa_group`
(the code's `non_polymers_PERFs`), transcribed with its duplicates; a few
long names are split with `++` purely for layout — the string values match
the source byte for byte. -/
def non_polymers_PERFs : List String :=
  ["PFAA", "PFOA", "PFSA", "PFOS", "PFBS", "PASF", "POSF", "PBSF", "FASA", "PFHxDA", "PFHpS",
   "PFHxl", "PFHxS", "POF", "PFAL", "PAF", "PFNAL", "PFNS", "PFPeA", "PFNA", "PFDA", "PFDS",
   "PFDoS", "PFBA", "PFDoA", "PFDoTS", "PFCH", "PFOSF", "PFCP", "PFCPMSF", "PFOSAE", "PFMSA",
   "PFUnDA", "PFU(n)DA", "PFDoDA", "PFTrDA", "PFTeDA", "PFPeDA", "PFHxDA",
   "Pentadecafluorooctanoic", "heptadecafluorooctane-1-sulfonic", "PASF", "PFAL",
   "PFdiCA", "PFdiSA", "PFECA", "FASA", "PFPiA", "PFHx", "PFHxDA", "PFHxA",
   "γ-ω-perfluoro C10-20-thiols", "GenX", "N-ME-FOSA", "Perfluorododecyltrifluorosilane",
   "PFHpA", "PFHxPA", "PFECH", "PFD", "PFTrS", "PFESA", "3-(Perfluorohexyl)propyl acrylate",
   "PFDPA", "Hexafluoropropylene oxide dimer acid", "H,1H,2H,2H-perfluorododecanol",
   "Propionic acid, tetrafluoro-3-(trifluoromethoxy)- (8CI)", "PFECHS",
   "2,2,3,3,4,4-Hexafluoro-4-(trifluoromethoxy)butanoic acid",
   "4,4,5,5,6,6,7,7," ++ "8,8,9,9,10,10,10-Pentadecafluorodecanoic acid",
   "Acetic acid, 2,2-difluoro-2-[[2,2,4,5-tetrafluoro-5-(trifluoromethoxy)-1,3-dioxolan-4-yl]oxy]-, ammonium salt (1:1)",
   "C604", "PFMOBA", "PFECA", "PfHxDA",
   "1-Octanesulfonic acid, 1,1,2,2,3,3,4,4," ++ "5,5,6,6,7,7,8,8," ++ "8-heptadecafluoro-, potassium salt (8CI,9CI)",
   "3,3,4,4,5,5,6,6," ++ "7,7,8,8,9,9,10,10," ++ "11,11,12,12,12-Heneicosafluorododecanal",
   "Tetradecanoic acid, heptacosafluoro- (9CI)",
   "Octanoic acid, pentadecafluoro-, ion(1-) (9CI)",
   "4,4,5,5,6,6,7,7,8,8,8-Undecafluorooctanoic acid",
   "1-Hexanesulfonic acid, 1,1,2,2,3,3,4,4," ++ "5,5,6,6,6-tridecafluoro-",
   "3,3,4,4,5,5,6,6," ++ "7,7,8,8,9,9,10,10," ++ "11,11,12,12,12-Heneicosafluoro-1-dodecanol",
   "1-Heptanesulfonic acid, pentadecafluoro- (6CI)",
   "1,1,2,2,3,3,4,4," ++ "5,5,6,6,6-Tridecafluoro-1-hexanesulfonamide",
   "1-Butanesulfonic acid, 1,1,2,2,3,3,4,4,4-nonafluoro-, potassium salt (8CI,9CI)",
   "1,1,2,2,3,3,4,4,4-Nonafluoro-N-methyl-1-butanesulfonamide",
   "3,3,4,4,5,5,6,6," ++ "7,7,8,8,9,9,10,10," ++ "11,11,12,12,12-Henicosafluorododecane-1-sulfonic acid",
   "Glycine, N-[(heptadecafluorooctyl)sulfonyl]-N-methyl- (9CI)", "C8 Cl-PFESA",
   "Perfluoro compounds",
   "Perfluorooctane sulfonamidoacetic acid", "Perfluoro compounds, γ-ω-perfluoro C10-20-thiols",
   "Decanoic acid, nonadecafluoro-, ethenyl ester (9CI)",
   "Octanoic acid, pentadecafluoro-, butyl ester (6CI,8CI,9CI)",
   "Octanoic acid, tetradecafluoro-7-(trifluoromethyl)- (8CI)",
   "Silane, trichloro[5,5,6,6,7,7,8,8," ++ "9,9,10,10,10-tridecafluoro-2-(1,1,2,2,3,3,4,4," ++ "5,5,6,6,6-tridecafluorohexyl)decyl]-",
   "Undecane, 1,1,1,2,2,3,3,4," ++ "4,5,5,6,6-tridecafluoro-",
   "1,1,1,2,2,3,3,4," ++ "4,5,5,6,6,7,7,8," ++ "8,9,9,10,10,11,11,12," ++ "12,13,13-Heptacosafluoro-15-iodopentadecane",
   "1,1,1,2,2,3,3,4," ++ "4,5,5,6,6,7,7,8," ++ "8,9,9,10,10-Heneicosafluoro-12-iodooctadecane",
   "1,1,1,2,2,3,3,4," ++ "4,5,5,6,6,7,7,8," ++ "8-Heptadecafluoro-10-iodohexadecane",
   "1-Decanol, 3,3,4,4,5,5,6,6," ++ "7,7,8,8,9,9,10,10," ++ "10-heptadecafluoro-, dihydrogen phosphate",
   "1-Dodecanol, 3,3,4,4,5,5,6,6," ++ "7,7,8,8,9,9,10,10," ++ "11,11,12,12,12-heneicosafluoro-, hydrogen sulfate, ammonium salt",
   "3,3,4,4,5,5,6,6," ++ "7,7,8,8,8-Tridecafluoro-1-octanol",
   "3,3,4,4,5,5,6,6," ++ "7,7,8,8,9,9,10,10," ++ "10-Heptadecafluoro-1-decanethiol",
   "3,3,4,4,5,5,6,6," ++ "7,7,8,8,9,9,10,10," ++ "11,11,12,12,13,13,14,14," ++ "14-Pentacosafluoro-1-tetradecanol",
   "3,3,4,4,5,5,6,6," ++ "7,7,8,8,9,9,9-Pentadecafluoro-1-nonanol",
   "4,4,5,5,6,6,7,7," ++ "8,8,9,9,10,10,10-Pentadecafluoro-1-decanol",
   "4,4,5,5,6,6,7,7," ++ "8,8,9,9,10,10,11,11," ++ "11-Heptadecafluoroundecanenitrile",
   "4,4,5,5,6,6,7,7," ++ "8,8,9,9,10,10,11,11," ++ "11-Heptadecafluoroundecanoyl chloride",
   "Heptadecane, 1,1,1,2,2,3,3,4," ++ "4,5,5,6,6,7,7,8," ++ "8,9,9,10,10-heneicosafluoro-12-iodo",
   "Hexadecane, 1,1,1,2,2,3,3,4," ++ "4,5,5,6,6,7,7,8," ++ "8,9,9,10,10-heneicosafluoro-12-iodo",
   "Dodecanoic acid, tricosafluoro-, ethyl ester",
   "Dodecanoic acid, tricosafluoro-, methyl ester",
   "Undecanal, heneicosafluoro",
   "1-Octanesulfonic acid, 3,3,4,4,5,5,6,6," ++ "7,7,8,8,8-tridecafluoro-, ammonium salt (9CI)",
   "1-Octanesulfonic acid, 3,3,4,4,5,5,6,6," ++ "7,7,8,8,8-tridecafluoro-, barium salt (2:1)",
   "1-Octanesulfonic acid, 3,3,4,4,5,5,6,6," ++ "7,7,8,8,8-tridecafluoro-, potassium salt (9CI)",
   "Glycine, N-[(heptadecafluorooctyl)sulfonyl]-N-methyl- (9CI)",
   "Acrylic acid, 2,2,3,3,4,4,5,5," ++ "6,6,7,7,8,8,9,9," ++ "10,10,10-nonadecafluorodecyl ester (8CI)"]

/-- The static Polyfluoroalkyl non-polymer substance list of
`add_pfa_group` (the code's `non_polymer_POLYs`); a few long names are
split with `++` purely for layout — the string values match the source
byte for byte.  Note "GenX" appears here AND in `non_polymers_PERFs`. -/
def non_polymer_POLYs : List String :=
  ["2,2,3-Trifluoro-3-[1,1,2,2,3,3-hexafluoro-3-(trifluoromethoxy)propoxy]propanoic acid",
   "FTSA", "FOSE", "MeFOSA", "FTOH", "DiPAP", "FTAB", "4:2 FTSA", "N-Et-FOSA", "N-Et-FOSA-A",
   "ADONA", "GenX",
   "N-EtFOSE", "N-MeFOSE", "FOSA", "FOSA_branched", "6:2 FTAC", "6:2 FTMAC", "6:2 FTSA",
   "6:2 FTUCA", "PFODA", "PFOPA", "PFOSi", "PFPeS",
   "6:2 PAP", "6:2FTS", "8:2 FTAC", "8:2 FTOH", "8:2 FTSA", "8:2 FTUCA",
   "FBSE", "FBSA", "FTEO", "FTMAC", "FTS", "FTCA", "sulfonamido", "PolyFEA",
   "FTUOH", "FTO", "FTUAL", "PAP", "FASE", "FASAA", "FAS(M)AC", "HFPO", "FTUCA", "FTCA",
   "HFPO-DA", "PFBA", "10:2 FTUCA", "FTOH", "FTS", "PFDA",
   "Acrylic acid, 2,2,3,3,4,4,5,5," ++ "6,6,7,7,8,8,9,9", "MeFBSE", "MeFBSAA", "n-MeFOSA",
   "6:2 diPAP", "8:2 diPAP", "6:2/8:2 diPAP",
   "Acrylic acid, 2,2,3,3,4,4,5,5," ++ "6,6,7,7,8,8,9,9-hexadecafluorononyl ester (7CI,8CI)",
   "Acrylic acid, 3,3,4,4,5,5,6,6," ++ "7,7,8,8,9,9,10,10," ++ "11,11,12,12,13,13,14,14," ++ "14-pentacosafluorotetradecyl ester (8CI)",
   "Methacrylic acid, 2,2,3,3,4,4,5,5," ++ "6,6,7,7,8,8,9,9," ++ "10,10,10-nonadecafluorodecyl ester (8CI)",
   "Nonanoic acid, 4,4,5,5,6,6,7,7," ++ "8,8,9,9,9-tridecafluoro-2-iodo-, ethyl ester",
   "Carbonic acid, ethenyl 3,3,4,4,5,5,6,6," ++ "7,7,8,8,8-tridecafluorooctyl ester",
   "Oxirane, (2,2,3,3,4,4,5,5," ++ "6,6,7,7,8,8,9,9," ++ "10,10,11,11,11-heneicosafluoroundecyl)- (9CI)",
   "Oxirane, (2,2,3,3,4,4,5,5," ++ "6,6,7,7,8,8,9,9," ++ "10,10,11,11,12,12,13,13," ++ "13-pentacosafluorotridecyl)- (9CI)",
   "Oxirane, [2,2,3,3,4,4,5,5," ++ "6,6,7,7,8,8,9,9," ++ "10,10,11,11,12,13,13,13-tetracosafluoro-12-(trifluoromethyl)tridecyl]- (9CI)",
   "Ethanol, 2,2-difluoro-2-[1,1,2,2-tetrafluoro-2-[1,1,2,2-tetrafluoro-2-(nonafluorobutoxy)ethoxy]ethoxy]-",
   "4-Bromo-2-[4,4,5,5,6,6,7,7," ++ "8,9,9,9-dodecafluoro-8-(trifluoromethyl)nonyl]phenol",
   "2,2,3,4,4,5,5,6," ++ "6,7,8,8,8-Tridecafluoro-3,7-bis(trifluoromethyl)octanoic acid",
   "2-Propanol, 1,3-bis[(2,2,3,3,4,4,5,5," ++ "6,6,7,7-dodecafluoroheptyl)oxy]-, hydrogen sulfate, sodium salt (9CI)",
   "Phosphonic acid, P-(1,1,2,2,3,3,4,4," ++ "5,5,6,6,7,7,8,8," ++ "8-heptadecafluorooctyl)-, compd. with 4-methylbenzenamine (1:1)",
   "Dichlorobis(3,3,4,4,5,5,6,6,6-nonafluorohexyl)silane",
   "5-Fluoro-5,7,7-tris(trifluoromethyl)-6-[2,2,2-trifluoro-1-(trifluoromethyl)ethylidene]-1,4-dioxepane",
   "Ethanol, 2,2-difluoro-2-[1,1,2,2-tetrafluoro-2-[1,1,2,2-tetrafluoro-2-(nonafluorobutoxy)ethoxy]ethoxy]- (9CI)",
   "Ethanol, 2-[(2,2,3,3,4,4,5,5," ++ "6,6,7,7,7-tridecafluoroheptyl)oxy]-",
   "1,2-Tridecanediol, 4,4,5,5,6,6,7,7," ++ "8,8,9,9,10,10,11,11," ++ "12,12,13,13,13-heneicosafluoro-, 1-(dihydrogen phosphate), diammonium salt",
   "1-Decanol, 4,4,5,5,6,6,7,7," ++ "8,8,9,9,10,10,10-pentadecafluoro-2-iodo",
   "1-Dodecanol, 3,3,4,4,5,5,6,6," ++ "7,7,8,8,9,9,10,10," ++ "11,11,12,12,12-heneicosafluoro-, 1-(hydrogen sulfate), potassium salt",
   "1-Propanol, 3-[(nonafluorobutyl)sulfonyl]",
   "2,3,4,5,5,5-Hexafluoro-2,4-bis(trifluoromethyl)-1-pentanol",
   "3,3,4,4,5,5,6,6," ++ "7,8,8,8-Dodecafluoro-7-(trifluoromethyl)-1-octanol",
   "4,4,5,5,6,6,7,7," ++ "8,9,9,9-Dodecafluoro-2-iodo-8-(trifluoromethyl)-1-nonanol",
   "4-[(4,4,5,5,6,6,7,7," ++ "8,8,9,9,10,10,11,11," ++ "11-Heptadecafluoroundecyl)oxy]benzaldehyde",
   "6,6,7,7,8,8,9,9," ++ "10,10,11,11,11-Tridecafluoro-4-iodo-1-undecanol",
   "Octanal, pentadecafluoro", "2,2,3,3,4,4-Hexafluoro-4-(trifluoromethoxy)butanoic acid",
   "Octane, 1,1,1,2,2,3,3,4," ++ "4,5,5,6,6-tridecafluoro-8-(2-propenyloxy)",
   "Pentadecane, 1,1,1,2,2,3,3,4," ++ "4,5,5,6,6,7,7-pentadecafluoro-9-iodo",
   "Pentanoic acid, 4,4-difluoro-5-[[(1,1,2,2,3,3,4,4,4-nonafluorobutyl)sulfonyl]oxy]-, ethyl ester",
   "Phenol, 4-chloro-2-(2-chloro-4,4,5,5,6,6,7,7," ++ "8,8,9,9,10,10,11,11," ++ "11-heptadecafluoroundecyl)-, acetate",
   "Phenol, 5-chloro-2-(2-chloro-4,4,5,5,6,6,7,7," ++ "8,8,9,9,10,10,11,11," ++ "11-heptadecafluoroundecyl)-, acetate",
   "Potassium 2,2,3,3-tetrafluoro-3-(heptafluoropropoxy)propionate",
   "Propanoic acid, 2,2,3,3-tetrafluoro-3-(heptafluoropropoxy)- (9CI)",
   "Propanoic acid, 2,2,3,3-tetrafluoro-3-(heptafluoropropoxy)-, sodium salt (9CI)",
   "Propanoic acid, 2,3,3,3-tetrafluoro-2-(heptafluoropropoxy)-, potassium salt (9CI)",
   "Propanoic acid, 2,3,3,3-tetrafluoro-2-(heptafluoropropoxy)-, sodium salt (9CI)",
   "Propanoic acid, 2,3,3,3-tetrafluoro-2-[1,1,2,3,3,3-hexafluoro-2-[1,1,2,3,3,3-hexafluoro-2-(heptafluoropropoxy)propoxy]propoxy]- (9CI)"]

/-- The static polymer substance list of `add_pfa_group` (the code's
`polymers`), transcribed verbatim. -/
def polymers : List String :=
  ["PTFE", "PVDF", "PVF", "PFPE", "FEP", "PFA", "PCTFE", "ETFE", "ECTFE", "FFPM", "FFKM",
   "FEPM", "PFSA", "PVDF", "HFP", "EFEP", "FFKM", "FEPM", "PCTFE", "Polychlorotrifluoroethylene"]

/-- The per-row body of `add_pfa_group`'s loop: membership-test the
substance against the three lists in priority order, first match wins,
no match gives "Unclassified". -/
def classifySubstance (substance : String) : String :=
  if substance ∈ non_polymers_PERFs then "Perfluoroalkyl PFAs"
  else if substance ∈ non_polymer_POLYs then "Polyfluoroalkyl PFAs"
  else if substance ∈ polymers then "Polymer PFAs"
  else "Unclassified"

/-- `add_pfa_group`: create the `PFA type` column and fill it row by row
from the substance column via the three static lists. -/
def add_pfa_group (df : List Row) : List Row :=
  df.map fun r => { r with pfaType := classifySubstance r.substance }

/-- The module-level pipeline of `PFAS_load_process_tidied.py`:
`preprocessed = preprocess_pfas(df_pd)`;
`preprocessed_and_flagged = ocean_sea_flag(preprocessed, "lat", "lon")`;
`preprocessed_and_flagged_final = add_pfa_group(preprocessed_and_flagged)`.
`none` when `preprocess_pfas` raised. -/
def pipeline (oracle : ℚ → ℚ → Option Bool) (df : List SourceRecord) : Option (List Row) :=
  match preprocess_pfas df with
  | none => none
  | some t => some (add_pfa_group (ocean_sea_flag oracle t))

/-! ### Dashboard filter helpers (`PFAS_Dashboard_Deploy.py`)

A Dash dropdown's `value` is a dynamically typed Python value: an entry of
the column (an int for `year`, a string for the other columns), the added
sentinel string "All", or `None` when the dropdown is cleared.  `DVal`
models the non-`None` values; `Option DVal` models the argument, `none`
standing for Python `None`. -/

/-- A non-`None` dropdown value: either an int (year entries) or a string
(country / PFA type / location-type entries and the "All" sentinel). -/
inductive DVal where
  | intv (n : Int)
  | strv (s : String)
  deriving Repr, DecidableEq

/-- Python `==` between a dropdown value and an int cell
(`df["year"] == value`): an int compares by value, a string never equals
an int (Python returns False, not an error). -/
def DVal.eqInt (v : DVal) (n : Int) : Bool :=
  match v with
  | .intv m => m = n
  | .strv _ => false

/-- Python `==` between a dropdown value and a string cell. -/
def DVal.eqStr (v : DVal) (s : String) : Bool :=
  match v with
  | .intv _ => false
  | .strv t => t = s

/-- The guard of the conditions comprehension:
`if value != "All" and value is not None`. -/
def activeFilter (v : Option DVal) : Bool :=
  match v with
  | none => false
  | some x => x ≠ DVal.strv "All"

/-- One element of the `conditions` list when the filter is active, the
empty list otherwise. -/
def condFor (v : Option DVal) (test : DVal → Row → Bool) : List (Row → Bool) :=
  match v with
  | none => []
  | some x => if x ≠ DVal.strv "All" then [test x] else []

/-- Combining the conditions with bitwise AND and applying the mask; with
no conditions the original dataframe is returned. -/
def applyConditions (df : List Row) (conditions : List (Row → Bool)) : List Row :=
  match conditions with
  | [] => df
  | c :: cs => df.filter fun r => cs.foldl (fun acc c2 => acc && c2 r) (c r)

/-- `filter_df_helper(df, year_dd, country_dd, pfa_type_dd,
location_type_dd)`: build one equality condition per dropdown whose value
is neither "All" nor `None` (columns `year`, `country`, `PFA type`,
`measurement location type`, in that order), AND them together, and filter;
with no active filter return `df` unchanged. -/
def filter_df_helper (df : List Row) (year_dd country_dd pfa_type_dd location_type_dd : Option DVal) : List Row :=
  let conditions :=
    condFor year_dd (fun v r => v.eqInt r.year) ++
    condFor country_dd (fun v r => v.eqStr r.country) ++
    condFor pfa_type_dd (fun v r => v.eqStr r.pfaType) ++
    condFor location_type_dd (fun v r => v.eqStr r.locationType)
  applyConditions df conditions

/-- `filter_df_helper_location(df, year_dd, country_dd)`: same construction
restricted to the `year` and `country` dropdowns. -/
def filter_df_helper_location (df : List Row) (year_dd country_dd : Option DVal) : List Row :=
  let conditions :=
    condFor year_dd (fun v r => v.eqInt r.year) ++
    condFor country_dd (fun v r => v.eqStr r.country)
  applyConditions df conditions

/-! ### Concrete inputs used by counterexamples and witnesses -/

/-- Oracle for coordinates resolving to land: `globe.is_ocean` returns
`False`. -/
def landOracle : ℚ → ℚ → Option Bool := fun _ _ => some false

/-- Oracle for coordinates resolving to open sea: `globe.is_ocean` returns
`True`. -/
def oceanOracle : ℚ → ℚ → Option Bool := fun _ _ => some true

/-- Oracle for coordinates on which `globe.is_ocean` raises (missing or
invalid lat/lon). -/
def failOracle : ℚ → ℚ → Option Bool := fun _ _ => none

/-- The spec's end-to-end example Source Record:
`pfas_values = [{"substance":"PFOA","value":5,"unit":"ng/kg"},
{"substance":"GenX","value":2,"unit":"ng/kg"}]`, matrix "Terrestrial",
coordinates resolving to land, year 1900.  The record-level `unit` column
(which becomes `measurement units` after the join) is "ng/kg". -/
def exRecord : SourceRecord :=
  { dataset_id := "study-1"
    year := 1900
    date := "2024-05-01"
    name := "Site A"
    category := "Environment"
    lat := 48
    lon := 9
    city := "Stuttgart"
    country := "Germany"
    type := "sample"
    sector := "industry"
    matrix := "Terrestrial"
    unit := "ng/kg"
    pfas_values := [⟨"PFOA", 5, "ng/kg"⟩, ⟨"GenX", 2, "ng/kg"⟩] }

/-- A source record whose `pfas_values` list is empty (serialized "[]"). -/
def emptyRecord : SourceRecord :=
  { exRecord with dataset_id := "study-2", pfas_values := [] }

/-- A generic preprocessed row: `measurement location type` "Terrestrial",
`measurement units` "ng/kg", value 10. -/
def sampleRow : Row :=
  { study_id := "study-1"
    year := 2020
    date := "2020-06-01"
    name := "Site B"
    category := "Environment"
    lat := 50
    lon := 10
    city := "Bonn"
    country := "Germany"
    type := "sample"
    sector := "industry"
    locationType := "Terrestrial"
    substance := "PFOA"
    value := 10
    units := "ng/kg"
    month := "June"
    flag := ""
    pfaType := "" }

/-- A row whose matrix says "Terrestrial" (with unit "ng/kg") but whose
coordinates lie in the ocean: under `oceanOracle` its computed flag is
"Oceanic" while the unit conversion still fires. -/
def terrRowOcean : Row := sampleRow

/-- The output row `ocean_sea_flag oceanOracle [terrRowOcean]` produces. -/
def terrRowOceanOut : Row :=
  { terrRowOcean with flag := "Oceanic", value := 13, units := "ng/L" }

/-- A row that fails the conversion condition (units "ng/L" already). -/
def waterRow : Row :=
  { sampleRow with locationType := "Aquatic", units := "ng/L", value := 7 }

/-- A row whose substance "GenX" occurs in both the perfluoro and the
polyfluoro static lists. -/
def genxRow : Row := { sampleRow with substance := "GenX" }

/-- The row `ocean_sea_flag landOracle [sampleRow]` produces. -/
def sampleRowOutLand : Row :=
  { sampleRow with flag := "Terrestrial", value := 13, units := "ng/L" }

/-- The row `ocean_sea_flag failOracle [sampleRow]` produces: the land/sea
query raised, so the flag is "Unknown"; the conversion still fires because
it reads the matrix column, not the flag. -/
def sampleRowOutFail : Row :=
  { sampleRow with flag := "Unknown", value := 13, units := "ng/L" }

/-- The row `ocean_sea_flag landOracle [waterRow]` produces: no conversion
(matrix is not "Terrestrial", unit already "ng/L"). -/
def waterRowOutLand : Row := { waterRow with flag := "Terrestrial" }

/-- The row `add_pfa_group [genxRow]` produces: "GenX" is in
`non_polymers_PERFs` (checked first), so the priority order assigns
"Perfluoroalkyl PFAs" even though "GenX" is also in `non_polymer_POLYs`. -/
def genxRowOut : Row := { genxRow with pfaType := "Perfluoroalkyl PFAs" }

/-- The PFOA row the full pipeline produces from `exRecord`:
value 5 × 1.3 = 13/2 (= 6.5), unit "ng/L", flag "Terrestrial",
year 2024 (the month column is kept as the `monthOf` computation on the
record's date; the claims do not constrain it). -/
def exRowPFOA : Row :=
  { study_id := "study-1"
    year := 2024
    date := "2024-05-01"
    name := "Site A"
    category := "Environment"
    lat := 48
    lon := 9
    city := "Stuttgart"
    country := "Germany"
    type := "sample"
    sector := "industry"
    locationType := "Terrestrial"
    substance := "PFOA"
    value := 13 / 2
    units := "ng/L"
    month := monthOf "2024-05-01"
    flag := "Terrestrial"
    pfaType := "Perfluoroalkyl PFAs" }

/-- The GenX row the full pipeline produces from `exRecord`:
value 2 × 1.3 = 13/5 (= 2.6) and PFA type "Perfluoroalkyl PFAs" (not
"Polyfluoroalkyl PFAs": the perfluoro list is tested first and contains
"GenX"). -/
def exRowGenX : Row :=
  { exRowPFOA with substance := "GenX", value := 13 / 5 }

/-- The PFOA row `preprocess_pfas [exRecord]` produces (before the flag
and taxonomy stages): value still 5, unit still "ng/kg", year already
coerced to 2024. -/
def exPreRowPFOA : Row :=
  { exRowPFOA with value := 5, units := "ng/kg", flag := "", pfaType := "" }

/-- The GenX row `preprocess_pfas [exRecord]` produces. -/
def exPreRowGenX : Row :=
  { exPreRowPFOA with substance := "GenX", value := 2 }

/-! ### Helper lemmas -/

/-- Pointwise characterization of `ocean_sea_flag`: each row gets its flag
from the land/sea oracle, its value from `convert_to_ng_per_l`, and its
unit force-set to "ng/L". -/
theorem ocean_sea_flag_eq_map (oracle : ℚ → ℚ → Option Bool) (df : List Row) :
    ocean_sea_flag oracle df
      = df.map fun r =>
          { r with flag := flagOf oracle r, value := convert_to_ng_per_l r,
                   units := "ng/L" } := by
  simp only [ocean_sea_flag, List.map_map]
  rfl

/-- A cleared dropdown (`None`) contributes no filter condition. -/
theorem condFor_none (t : DVal → Row → Bool) : condFor none t = [] := rfl

/-- The "All" sentinel contributes no filter condition. -/
theorem condFor_all (t : DVal → Row → Bool) : condFor (some (DVal.strv "All")) t = [] := by
  simp [condFor]

/-- Evaluation of `preprocess_pfas` on the end-to-end example record. -/
theorem preprocess_exRecord_eval :
    preprocess_pfas [exRecord] = some [exPreRowPFOA, exPreRowGenX] := by
  simp [preprocess_pfas, exRecord, mkRow, coerceYear, exPreRowPFOA, exPreRowGenX,
        exRowPFOA, Row.mk.injEq]

/-! ### Claim theorems -/

/-- C5: after `ocean_sea_flag`, every row's `measurement units` column
equals "ng/L", whatever the original unit was and whether or not the
numeric value was converted (the column is force-set for every row). -/
theorem C5_units_uniform_after_normalization
    (oracle : ℚ → ℚ → Option Bool) (df : List Row) (row : Row)
    (h : row ∈ ocean_sea_flag oracle df) : row.units = "ng/L" := by
  rw [ocean_sea_flag_eq_map] at h
  rcases List.mem_map.1 h with ⟨r, _, rfl⟩
  rfl

/-- Witness for C5 at a concrete row. -/
theorem C5_units_uniform_after_normalization_witness :
    sampleRowOutLand.units = "ng/L" :=
  C5_units_uniform_after_normalization landOracle [sampleRow] sampleRowOutLand (by
    have h : ocean_sea_flag landOracle [sampleRow] = [sampleRowOutLand] := by
      simp [ocean_sea_flag, flagOf, convert_to_ng_per_l, update_unit, landOracle,
            sampleRow, sampleRowOutLand, Row.mk.injEq]
      norm_num
    rw [h]
    exact List.mem_singleton.2 rfl)

/-- C8: year coercion — `coerceYear` sends the sentinel years 0 and 1900 to
the fallback 2024 and every other year through unchanged, and every row
produced by `preprocess_pfas` carries the coerced year of its parent
record. -/
theorem C8_year_coercion :
    (∀ y : Int,
      ((y = 0 ∨ y = 1900) → coerceYear y = 2024)
        ∧ (y ≠ 0 → y ≠ 1900 → coerceYear y = y))
    ∧ ∀ (r : SourceRecord) (out : List Row), preprocess_pfas [r] = some out →
        ∀ row ∈ out, row.year = coerceYear r.year := by
  constructor
  · intro y
    constructor
    · intro h
      simp [coerceYear, h]
    · intro h0 h1900
      simp [coerceYear, h0, h1900]
  · intro r out hout row hrow
    simp only [preprocess_pfas] at hout
    split at hout
    · cases hout
    · rcases Option.some_inj.1 hout with rfl
      simp only [List.mem_map, List.mem_flatMap, List.mem_filter] at hrow
      rcases hrow with ⟨row1, ⟨row0, ⟨r0, ⟨hr0, _⟩, s, _, rfl⟩, rfl⟩, rfl⟩
      rcases List.mem_singleton.1 hr0 with rfl
      rfl

/-- Witness for C8: year 1900 is coerced to 2024, year 2005 passes
through, and the example record's first row carries the coerced year. -/
theorem C8_year_coercion_witness :
    coerceYear 1900 = 2024 ∧ coerceYear 2005 = 2005
    ∧ exPreRowPFOA.year = coerceYear exRecord.year :=
  ⟨(C8_year_coercion.1 1900).1 (Or.inr rfl),
   (C8_year_coercion.1 2005).2 (by decide) (by decide),
   C8_year_coercion.2 exRecord [exPreRowPFOA, exPreRowGenX] preprocess_exRecord_eval
     exPreRowPFOA (by simp)⟩

/-- C9: with all four dropdowns set to the "All" sentinel,
`filter_df_helper` builds no conditions and returns the input table
unchanged. -/
theorem C9_filter_all_identity (df : List Row) :
    filter_df_helper df (some (DVal.strv "All")) (some (DVal.strv "All"))
      (some (DVal.strv "All")) (some (DVal.strv "All")) = df := by
  simp [filter_df_helper, condFor_all, applyConditions]

/-- C10: a cleared dropdown (`None`) behaves exactly like the "All"
sentinel in both filter helpers — no condition is built for that column —
and with every argument `None` both helpers return the table unchanged. -/
theorem C10_none_behaves_like_all (df : List Row) (y c p l : Option DVal) :
    (filter_df_helper df none c p l
       = filter_df_helper df (some (DVal.strv "All")) c p l)
    ∧ (filter_df_helper df y none p l
       = filter_df_helper df y (some (DVal.strv "All")) p l)
    ∧ (filter_df_helper df y c none l
       = filter_df_helper df y c (some (DVal.strv "All")) l)
    ∧ (filter_df_helper df y c p none
       = filter_df_helper df y c p (some (DVal.strv "All")))
    ∧ (filter_df_helper_location df none c
       = filter_df_helper_location df (some (DVal.strv "All")) c)
    ∧ (filter_df_helper_location df y none
       = filter_df_helper_location df y (some (DVal.strv "All")))
    ∧ filter_df_helper df none none none none = df
    ∧ filter_df_helper_location df none none = df := by
  refine ⟨?_, ?_, ?_, ?_, ?_, ?_, ?_, ?_⟩ <;>
    simp [filter_df_helper, filter_df_helper_location, condFor_none, condFor_all,
          applyConditions]

/-- Evaluation of `ocean_sea_flag` on the matrix-Terrestrial row whose
coordinates the oracle puts in the ocean. -/
theorem ocean_sea_flag_terrRowOcean_eval :
    ocean_sea_flag oceanOracle [terrRowOcean] = [terrRowOceanOut] := by
  simp [ocean_sea_flag, flagOf, convert_to_ng_per_l, update_unit, oceanOracle,
        terrRowOcean, terrRowOceanOut, sampleRow, Row.mk.injEq]
  norm_num

/-- C2 as stated is false: the conversion conditional reads the
`measurement location type` column (the source `matrix` field), not the
Geospatial Classifier's output.  Concretely, a row whose matrix says
"Terrestrial" but whose coordinates classify as "Oceanic" still has its
value converted (10 becomes 13) and its unit relabelled, although its
computed Oceanic/Terrestrial classification is not "Terrestrial". -/
theorem C2_counterexample :
    ocean_sea_flag oceanOracle [terrRowOcean] = [terrRowOceanOut]
    ∧ terrRowOceanOut.flag = "Oceanic"
    ∧ terrRowOceanOut.flag ≠ "Terrestrial"
    ∧ terrRowOcean.value = 10
    ∧ terrRowOceanOut.value = 13
    ∧ terrRowOceanOut.units = "ng/L" :=
  ⟨ocean_sea_flag_terrRowOcean_eval, rfl, by decide, rfl, rfl, rfl⟩

/-- C2 amended: within `ocean_sea_flag`, each output row's flag is the
classification of the corresponding input row (so classification happens
before, and independently of, normalization), and the value conversion is
driven by the input row's `measurement location type` column and unit —
not by the computed flag. -/
theorem C2_conversion_driven_by_matrix_column (oracle : ℚ → ℚ → Option Bool)
    (df : List Row) (i : ℕ) (r r' : Row)
    (hr : df[i]? = some r) (hr' : (ocean_sea_flag oracle df)[i]? = some r') :
    r'.flag = flagOf oracle r
    ∧ r'.value = (if r.locationType = "Terrestrial" ∧ r.units = "ng/kg"
                  then r.value * (13 / 10) else r.value) := by
  rw [ocean_sea_flag_eq_map, List.getElem?_map _ df i, hr, Option.map_some'] at hr'
  rcases Option.some_inj.1 hr' with rfl
  exact ⟨rfl, rfl⟩

/-- Witness for the amended C2 at the ocean-classified matrix-Terrestrial
row. -/
theorem C2_conversion_driven_by_matrix_column_witness :
    terrRowOceanOut.flag = flagOf oceanOracle terrRowOcean
    ∧ terrRowOceanOut.value
        = (if terrRowOcean.locationType = "Terrestrial" ∧ terrRowOcean.units = "ng/kg"
           then terrRowOcean.value * (13 / 10) else terrRowOcean.value) :=
  C2_conversion_driven_by_matrix_column oceanOracle [terrRowOcean] 0 terrRowOcean
    terrRowOceanOut rfl (by rw [ocean_sea_flag_terrRowOcean_eval]; rfl)

/-- C3: a row whose `measurement location type` is "Terrestrial" and whose
unit is "ng/kg" before normalization gets value × 13/10 (= 1.3) and unit
"ng/L"; any row failing either condition keeps its numeric value. -/
theorem C3_terrestrial_unit_conversion (oracle : ℚ → ℚ → Option Bool)
    (df : List Row) (i : ℕ) (r r' : Row)
    (hr : df[i]? = some r) (hr' : (ocean_sea_flag oracle df)[i]? = some r') :
    (r.locationType = "Terrestrial" → r.units = "ng/kg" →
       r'.value = r.value * (13 / 10) ∧ r'.units = "ng/L")
    ∧ (¬(r.locationType = "Terrestrial" ∧ r.units = "ng/kg") →
       r'.value = r.value) := by
  rw [ocean_sea_flag_eq_map, List.getElem?_map _ df i, hr, Option.map_some'] at hr'
  rcases Option.some_inj.1 hr' with rfl
  constructor
  · intro h1 h2
    refine ⟨?_, rfl⟩
    show convert_to_ng_per_l r = r.value * (13 / 10)
    rw [convert_to_ng_per_l, if_pos ⟨h1, h2⟩]
  · intro h
    show convert_to_ng_per_l r = r.value
    rw [convert_to_ng_per_l, if_neg h]

/-- Evaluation of `ocean_sea_flag` on `sampleRow` with a land oracle. -/
theorem ocean_sea_flag_sampleRow_land_eval :
    ocean_sea_flag landOracle [sampleRow] = [sampleRowOutLand] := by
  simp [ocean_sea_flag, flagOf, convert_to_ng_per_l, update_unit, landOracle,
        sampleRow, sampleRowOutLand, Row.mk.injEq]
  norm_num

/-- Evaluation of `ocean_sea_flag` on the non-matching `waterRow`. -/
theorem ocean_sea_flag_waterRow_land_eval :
    ocean_sea_flag landOracle [waterRow] = [waterRowOutLand] := by
  simp [ocean_sea_flag, flagOf, convert_to_ng_per_l, update_unit, landOracle,
        waterRow, waterRowOutLand, sampleRow, Row.mk.injEq]

/-- Witness for C3: the matching row 10 ng/kg becomes 13 ng/L; the
non-matching row keeps its value 7. -/
theorem C3_terrestrial_unit_conversion_witness :
    (sampleRowOutLand.value = sampleRow.value * (13 / 10)
      ∧ sampleRowOutLand.units = "ng/L")
    ∧ waterRowOutLand.value = waterRow.value :=
  ⟨(C3_terrestrial_unit_conversion landOracle [sampleRow] 0 sampleRow sampleRowOutLand
      rfl (by rw [ocean_sea_flag_sampleRow_land_eval]; rfl)).1 rfl rfl,
   (C3_terrestrial_unit_conversion landOracle [waterRow] 0 waterRow waterRowOutLand
      rfl (by rw [ocean_sea_flag_waterRow_land_eval]; rfl)).2 (by decide)⟩

/-- C7: each row's computed flag is "Oceanic" when the land/sea query
returns true, "Terrestrial" when it returns false, "Unknown" when the
query fails (raises); the flag is always one of these three labels, and
the stage keeps every row (a per-row failure never aborts the run). -/
theorem C7_geospatial_classification (oracle : ℚ → ℚ → Option Bool)
    (df : List Row) (i : ℕ) (r r' : Row)
    (hr : df[i]? = some r) (hr' : (ocean_sea_flag oracle df)[i]? = some r') :
    (oracle r.lat r.lon = some true → r'.flag = "Oceanic")
    ∧ (oracle r.lat r.lon = some false → r'.flag = "Terrestrial")
    ∧ (oracle r.lat r.lon = none → r'.flag = "Unknown")
    ∧ (r'.flag = "Oceanic" ∨ r'.flag = "Terrestrial" ∨ r'.flag = "Unknown")
    ∧ (ocean_sea_flag oracle df).length = df.length := by
  rw [ocean_sea_flag_eq_map, List.getElem?_map _ df i, hr, Option.map_some'] at hr'
  rcases Option.some_inj.1 hr' with rfl
  refine ⟨?_, ?_, ?_, ?_, by rw [ocean_sea_flag_eq_map]; exact List.length_map _ _⟩
  · intro h
    show flagOf oracle r = "Oceanic"
    rw [flagOf, h]
  · intro h
    show flagOf oracle r = "Terrestrial"
    rw [flagOf, h]
  · intro h
    show flagOf oracle r = "Unknown"
    rw [flagOf, h]
  · show flagOf oracle r = "Oceanic" ∨ flagOf oracle r = "Terrestrial"
      ∨ flagOf oracle r = "Unknown"
    rw [flagOf]
    rcases oracle r.lat r.lon with _ | b
    · exact Or.inr (Or.inr rfl)
    · rcases b
      · exact Or.inr (Or.inl rfl)
      · exact Or.inl rfl

/-- Evaluation of `ocean_sea_flag` on `sampleRow` with a raising oracle. -/
theorem ocean_sea_flag_sampleRow_fail_eval :
    ocean_sea_flag failOracle [sampleRow] = [sampleRowOutFail] := by
  simp [ocean_sea_flag, flagOf, convert_to_ng_per_l, update_unit, failOracle,
        sampleRow, sampleRowOutFail, Row.mk.injEq]
  norm_num

/-- Witness for C7: a raising land/sea query yields the "Unknown" label
and the row is retained. -/
theorem C7_geospatial_classification_witness :
    sampleRowOutFail.flag = "Unknown"
    ∧ (ocean_sea_flag failOracle [sampleRow]).length = [sampleRow].length :=
  ⟨(C7_geospatial_classification failOracle [sampleRow] 0 sampleRow sampleRowOutFail
      rfl (by rw [ocean_sea_flag_sampleRow_fail_eval]; rfl)).2.2.1 rfl,
   (C7_geospatial_classification failOracle [sampleRow] 0 sampleRow sampleRowOutFail
      rfl (by rw [ocean_sea_flag_sampleRow_fail_eval]; rfl)).2.2.2.2⟩

/-- The four if-branches of `classifySubstance` are the four fixed
labels. -/
theorem classifySubstance_cases (s : String) :
    classifySubstance s = "Perfluoroalkyl PFAs"
    ∨ classifySubstance s = "Polyfluoroalkyl PFAs"
    ∨ classifySubstance s = "Polymer PFAs"
    ∨ classifySubstance s = "Unclassified" := by
  unfold classifySubstance
  split_ifs <;> simp

/-- C6: the PFA-type category is assigned by testing the substance against
the perfluoro list, then the polyfluoro list, then the polymer list, first
match winning, with fallback "Unclassified"; it is always one of the four
fixed labels and never the empty string. -/
theorem C6_pfa_type_taxonomy (df : List Row) (i : ℕ) (r r' : Row)
    (hr : df[i]? = some r) (hr' : (add_pfa_group df)[i]? = some r') :
    (r.substance ∈ non_polymers_PERFs → r'.pfaType = "Perfluoroalkyl PFAs")
    ∧ (r.substance ∉ non_polymers_PERFs → r.substance ∈ non_polymer_POLYs →
        r'.pfaType = "Polyfluoroalkyl PFAs")
    ∧ (r.substance ∉ non_polymers_PERFs → r.substance ∉ non_polymer_POLYs →
        r.substance ∈ polymers → r'.pfaType = "Polymer PFAs")
    ∧ (r.substance ∉ non_polymers_PERFs → r.substance ∉ non_polymer_POLYs →
        r.substance ∉ polymers → r'.pfaType = "Unclassified")
    ∧ (r'.pfaType = "Perfluoroalkyl PFAs" ∨ r'.pfaType = "Polyfluoroalkyl PFAs"
        ∨ r'.pfaType = "Polymer PFAs" ∨ r'.pfaType = "Unclassified")
    ∧ r'.pfaType ≠ "" := by
  rw [add_pfa_group, List.getElem?_map _ df i, hr, Option.map_some'] at hr'
  rcases Option.some_inj.1 hr' with rfl
  refine ⟨?_, ?_, ?_, ?_, ?_, ?_⟩
  · intro h1
    show classifySubstance r.substance = _
    rw [classifySubstance, if_pos h1]
  · intro h1 h2
    show classifySubstance r.substance = _
    rw [classifySubstance, if_neg h1, if_pos h2]
  · intro h1 h2 h3
    show classifySubstance r.substance = _
    rw [classifySubstance, if_neg h1, if_neg h2, if_pos h3]
  · intro h1 h2 h3
    show classifySubstance r.substance = _
    rw [classifySubstance, if_neg h1, if_neg h2, if_neg h3]
  · exact classifySubstance_cases r.substance
  · show classifySubstance r.substance ≠ ""
    rcases classifySubstance_cases r.substance with h | h | h | h <;> rw [h] <;> decide

/-- Evaluation of `add_pfa_group` on the GenX row. -/
theorem add_pfa_group_genxRow_eval : add_pfa_group [genxRow] = [genxRowOut] := by
  have h : classifySubstance "GenX" = "Perfluoroalkyl PFAs" := by decide
  simp [add_pfa_group, genxRow, genxRowOut, sampleRow, Row.mk.injEq, h]

/-- Witness for C6 at the substance "GenX", which sits in both the
perfluoro and the polyfluoro lists: the first list wins. -/
theorem C6_pfa_type_taxonomy_witness :
    genxRowOut.pfaType = "Perfluoroalkyl PFAs" ∧ "GenX" ∈ non_polymer_POLYs :=
  ⟨(C6_pfa_type_taxonomy [genxRow] 0 genxRow genxRowOut rfl
      (by rw [add_pfa_group_genxRow_eval]; rfl)).1 (by decide),
   by decide⟩

/-- C4 as stated is false in one corner: on a table whose only record has
an empty `pfas_values` list, the Flattener does not produce a 0-row output
with the record excluded — `pd.concat(expanded_rows)` is called with no
frames and raises `ValueError`, so no output exists at all. -/
theorem C4_counterexample :
    preprocess_pfas [emptyRecord] = none
    ∧ preprocess_pfas [emptyRecord] ≠ some [] := by
  constructor
  · rfl
  · intro h
    cases h

/-- C4 amended: whenever `preprocess_pfas` succeeds, its row count is the
sum of the list lengths over the records with non-empty lists; an
empty-list record contributes nothing (removing it from the input leaves
the result unchanged — this is its full exclusion); and on a single
non-empty record the output has one row per sub-measurement, each carrying
the record's contextual fields.  The success proviso is forced by the
counterexample: a table in which every record's list is empty makes the
run fail instead of producing an empty output. -/
theorem C4_flattener_row_counts :
    (∀ (df : List SourceRecord) (out : List Row), preprocess_pfas df = some out →
       out.length
         = ((df.filter fun r => !r.pfas_values.isEmpty).map
             fun r => r.pfas_values.length).sum)
    ∧ (∀ (r : SourceRecord) (df : List SourceRecord), r.pfas_values = [] →
        preprocess_pfas (r :: df) = preprocess_pfas df)
    ∧ (∀ (r : SourceRecord) (out : List Row), preprocess_pfas [r] = some out →
        out.length = r.pfas_values.length
        ∧ ∀ row ∈ out,
            row.study_id = r.dataset_id ∧ row.name = r.name ∧ row.country = r.country
            ∧ row.city = r.city ∧ row.lat = r.lat ∧ row.lon = r.lon
            ∧ row.locationType = r.matrix ∧ row.units = r.unit
            ∧ row.year = coerceYear r.year ∧ row.month = monthOf r.date) := by
  refine ⟨?_, ?_, ?_⟩
  · intro df out hout
    simp only [preprocess_pfas] at hout
    split at hout
    · cases hout
    · rcases Option.some_inj.1 hout with rfl
      simp [List.length_flatMap, List.length_map, Function.comp_def]
  · intro r df h
    simp [preprocess_pfas, h]
  · intro r out hout
    simp only [preprocess_pfas] at hout
    split at hout
    · cases hout
    · rcases Option.some_inj.1 hout with rfl
      constructor
      · simp only [List.length_map, List.length_flatMap, Function.comp_def]
        rcases hc : r.pfas_values with _ | ⟨s, ss⟩ <;> simp [hc]
      · intro row hrow
        simp only [List.mem_map, List.mem_flatMap, List.mem_filter] at hrow
        rcases hrow with ⟨row1, ⟨row0, ⟨r0, ⟨hr0, _⟩, s, _, rfl⟩, rfl⟩, rfl⟩
        rcases List.mem_singleton.1 hr0 with rfl
        exact ⟨rfl, rfl, rfl, rfl, rfl, rfl, rfl, rfl, rfl, rfl⟩

/-- Witness for the amended C4: dropping the empty-list record leaves the
result unchanged, and the two-entry example record yields exactly two
rows. -/
theorem C4_flattener_row_counts_witness :
    preprocess_pfas (emptyRecord :: [exRecord]) = preprocess_pfas [exRecord]
    ∧ [exPreRowPFOA, exPreRowGenX].length
        = (([exRecord].filter fun r => !r.pfas_values.isEmpty).map
            fun r => r.pfas_values.length).sum :=
  ⟨C4_flattener_row_counts.2.1 emptyRecord [exRecord] rfl,
   C4_flattener_row_counts.1 [exRecord] [exPreRowPFOA, exPreRowGenX]
     preprocess_exRecord_eval⟩

/-- Full evaluation of the pipeline on the spec's end-to-end example
record. -/
theorem pipeline_exRecord_eval :
    pipeline landOracle [exRecord] = some [exRowPFOA, exRowGenX] := by
  have h1 : classifySubstance "PFOA" = "Perfluoroalkyl PFAs" := by decide
  have h2 : classifySubstance "GenX" = "Perfluoroalkyl PFAs" := by decide
  rw [pipeline, preprocess_exRecord_eval]
  simp [ocean_sea_flag, add_pfa_group, flagOf, convert_to_ng_per_l, update_unit,
        landOracle, h1, h2, exPreRowPFOA, exPreRowGenX, exRowPFOA, exRowGenX,
        Row.mk.injEq]
  norm_num

/-- C1 as stated is false on the code: on the end-to-end example record
the GenX row's PFA type is "Perfluoroalkyl PFAs", not
"Polyfluoroalkyl PFAs" — "GenX" is in the perfluoro list, which is tested
first. -/
theorem C1_counterexample :
    (pipeline landOracle [exRecord]).map (fun rows => rows.map Row.pfaType)
      = some ["Perfluoroalkyl PFAs", "Perfluoroalkyl PFAs"]
    ∧ (pipeline landOracle [exRecord]).map (fun rows => rows.map Row.pfaType)
        ≠ some ["Perfluoroalkyl PFAs", "Polyfluoroalkyl PFAs"] := by
  rw [pipeline_exRecord_eval]
  refine ⟨rfl, ?_⟩
  intro h
  rcases Option.some_inj.1 h with h'
  simp [exRowGenX, exRowPFOA] at h'

/-- C1 amended: the pipeline on the end-to-end example record produces
exactly 2 rows; the PFOA row has value 13/2 (= 6.5), unit "ng/L", PFA type
"Perfluoroalkyl PFAs", flag "Terrestrial" and year 2024, and the GenX row
has the same contextual treatment (value 13/5 = 2.6, unit "ng/L", flag
"Terrestrial", year 2024) with PFA type "Perfluoroalkyl PFAs" (not
"Polyfluoroalkyl PFAs", since the perfluoro list has priority and contains
"GenX"). -/
theorem C1_end_to_end_example :
    (pipeline landOracle [exRecord]).map List.length = some 2
    ∧ (pipeline landOracle [exRecord]).map
        (fun rows => rows.map
          fun r => (r.substance, r.value, r.units, r.pfaType, r.flag, r.year))
      = some
          [("PFOA", (13 : ℚ) / 2, "ng/L", "Perfluoroalkyl PFAs", "Terrestrial", (2024 : ℤ)),
           ("GenX", (13 : ℚ) / 5, "ng/L", "Perfluoroalkyl PFAs", "Terrestrial", (2024 : ℤ))] := by
  rw [pipeline_exRecord_eval]
  exact ⟨rfl, rfl⟩

end PFAS
